import Mathlib

/-
Verification development for the two gallery-generator scripts of the
portfolio repository: generate_gallery.py (the V3 two-page generator) and
generate_gallery_v2.py (the V2 single-page generator).

The scripts are shallowly embedded: Python strings become `List Char`,
`str.find` becomes `strFind` (returning `Option Nat` instead of `-1`),
`str.replace` becomes `pyReplace`, file contents and backups become fields
of an explicit `SiteState`, and `os.path.exists` for image assets becomes
an oracle `fs : List Char → Bool`.  Python string literals are transcribed
with `\x27` for an apostrophe, `\x22` for a double quote and `\x7b` / `\x7d`
for braces.
-/

/-- Python `str.strip` whitespace set (ASCII): space, tab, LF, CR, VT, FF. -/
def pyIsSpace (c : Char) : Bool :=
  c = ' ' || c = '\t' || c = '\n' || c = '\x0d' || c = '\x0b' || c = '\x0c'

/-- Python `str.strip()`: drop leading and trailing whitespace. -/
def pyStrip (l : List Char) : List Char :=
  ((l.dropWhile pyIsSpace).reverse.dropWhile pyIsSpace).reverse

/-- Python `str.lower()` (ASCII case folding, as used on the data fields). -/
def pyLower (l : List Char) : List Char :=
  l.map Char.toLower

/-- Python `s.find(pat)`: index of the first occurrence of `pat` in `s`,
`none` standing for Python\x27s `-1`. -/
def strFind (s pat : List Char) : Option Nat :=
  if pat.isPrefixOf s then some 0
  else
    match s with
    | [] => none
    | _ :: t => Option.map (· + 1) (strFind t pat)

/-- Python `pat in s` (substring containment test). -/
def pyContains (s pat : List Char) : Bool :=
  (strFind s pat).isSome

/-- Python `s.replace(pat, repl)` for a non-empty `pat`: replace every
non-overlapping occurrence, scanning left to right. -/
def replaceAll (pat repl : List Char) : List Char → List Char
  | [] => []
  | c :: t =>
    if pat.isPrefixOf (c :: t) then
      repl ++ replaceAll pat repl (t.drop (pat.length - 1))
    else
      c :: replaceAll pat repl t
termination_by s => s.length
decreasing_by
  all_goals simp [List.length_drop]
  omega

/-- Python `s.replace("", repl)` inserts `repl` before every character and
once at the end. -/
def replaceEmpty (repl : List Char) (s : List Char) : List Char :=
  s.flatMap (fun c => repl ++ [c]) ++ repl

/-- Python `s.replace(pat, repl)`. -/
def pyReplace (s pat repl : List Char) : List Char :=
  if pat.isEmpty then replaceEmpty repl s else replaceAll pat repl s

/-- One loaded painting record (dict built by `read_paintings_data`,
lines 31-39 of generate_gallery.py / 35-43 of generate_gallery_v2.py). -/
structure Painting where
  title : List Char
  location : List Char
  filename : List Char
  medium : List Char
  price : List Char
  description : List Char
  featured : Bool
deriving DecidableEq

/-- Start anchor of `update_index_html` (line 156). -/
def indexStartMarker : List Char := ("    <!-- Featured Works Section -->").data

/-- End anchor of `update_index_html` (line 157). -/
def indexEndMarker : List Char := ("    <!-- Contact Section -->").data

/-- Start anchor of `update_gallery_html` (line 213). -/
def galleryStartMarker : List Char := ("    <!-- Tabbed Gallery Section -->").data

/-- End anchor of `update_gallery_html` (line 214). -/
def galleryEndMarker : List Char := ("    <!-- Footer -->").data

/-- The splice shared by `update_index_html` (lines 159-166) and
`update_gallery_html` (lines 216-223): find both anchors, fail (`False`
return in Python, `none` here) when either `find` gives `-1`, otherwise
rebuild the document as `content[:start] + fragment + "\n" + content[end:]`.
No ordering check between the two indices is performed. -/
def spliceAtMarkers (m1 m2 content frag : List Char) : Option (List Char) :=
  match strFind content m1, strFind content m2 with
  | some s, some e => some (content.take s ++ frag ++ '\n' :: content.drop e)
  | _, _ => none

/-- `generate_painting_card` of generate_gallery.py (lines 68-79). -/
def generate_painting_card (p : Painting) : List Char :=
  ("            <div class=\x22painting-card\x22>\n                <div class=\x22painting-image\x22 style=\x22background-image: url(\x27images/paintings/").data
  ++ p.location ++ ("/").data ++ p.filename
  ++ ("\x27); background-size: cover; background-position: center;\x22></div>\n                <div class=\x22painting-info\x22>\n                    <h3>").data
  ++ p.title
  ++ ("</h3>\n                    <p class=\x22medium\x22>").data
  ++ p.medium
  ++ ("</p>\n                    <p class=\x22description\x22>").data
  ++ p.description
  ++ ("</p>\n                    <div class=\x22price-tag\x22>From $").data
  ++ p.price
  ++ ("</div>\n                    <button class=\x22order-button\x22 onclick=\x22openOrderModal(\x27").data
  ++ p.title
  ++ ("\x27, ").data
  ++ p.price
  ++ (")\x22>ORDER PRINT</button>\n                </div>\n            </div>").data

/-- Fixed head of the featured-works fragment (lines 91-95). -/
def featuredPre : List Char :=
  ("    <!-- Featured Works Section -->\n    <section class=\x22featured-gallery\x22 id=\x22featured\x22>\n        <h2>Featured Works</h2>\n        <p class=\x22section-subtitle\x22>A curated selection of signature pieces</p>\n        <div class=\x22featured-grid\x22>\n").data

/-- Fixed tail of the featured-works fragment (lines 96-102). -/
def featuredPost : List Char :=
  ("\n        </div>\n        <div class=\x22view-all-cta\x22>\n            <a href=\x22gallery.html\x22 class=\x22view-all-button\x22>VIEW COMPLETE COLLECTION</a>\n        </div>\n    </section>\n").data

/-- `generate_featured_section` of generate_gallery.py (lines 81-105):
filter the records with the featured flag; if none, warn and return the
empty string, otherwise join the cards with newlines inside the fixed
section template. -/
def generate_featured_section (ps : List Painting) : List Char :=
  let featured := ps.filter (fun p => p.featured)
  if featured.isEmpty then []
  else
    featuredPre
    ++ List.intercalate ['\n'] (featured.map generate_painting_card)
    ++ featuredPost

/-- Guard of the no-featured warning print (lines 85-86). -/
def featuredWarningFires (ps : List Painting) : Bool :=
  (ps.filter (fun p => p.featured)).isEmpty

/-- The location buckets of `generate_tabbed_gallery` (lines 109-113). -/
def by_location (ps : List Painting) (loc : List Char) : List Painting :=
  ps.filter (fun p => p.location == loc)

/-- The fixed display order of the buckets (line 116). -/
def locationOrder : List (List Char) :=
  [("boston").data, ("delaware").data, ("misc").data]

/-- One tab panel (lines 120-124), parameterized by the bucket key and the
newline-joined card text. -/
def tabContentFor (loc cards : List Char) : List Char :=
  ("        <div class=\x22tab-content\x22 id=\x22").data
  ++ loc
  ++ ("-tab\x22 style=\x22display: none;\x22>\n            <div class=\x22gallery-grid\x22>\n").data
  ++ cards
  ++ ("\n            </div>\n        </div>").data

/-- The `tabs` list built by the loop of lines 115-124: one panel per
non-empty bucket, in the fixed order, empty buckets skipped. -/
def tabsFor (ps : List Painting) : List (List Char) :=
  locationOrder.filterMap (fun loc =>
    if (by_location ps loc).isEmpty then none
    else
      some (tabContentFor loc
        (List.intercalate ['\n'] ((by_location ps loc).map generate_painting_card))))

/-- Fixed head of the tabbed-gallery fragment (lines 126-133). -/
def tghPre : List Char :=
  ("    <!-- Tabbed Gallery Section -->\n    <div class=\x22gallery-container\x22>\n        <div class=\x22tab-navigation\x22>\n            <button class=\x22tab-button active\x22 onclick=\x22showTab(\x27boston\x27)\x22>Boston, MA</button>\n            <button class=\x22tab-button\x22 onclick=\x22showTab(\x27delaware\x27)\x22>Delaware, OH</button>\n            <button class=\x22tab-button\x22 onclick=\x22showTab(\x27misc\x27)\x22>Other Pieces</button>\n        </div>\n\n").data

/-- Fixed tail of the tabbed-gallery fragment (lines 134-136). -/
def tghPost : List Char := ("\n    </div>\n").data

/-- `generate_tabbed_gallery` of generate_gallery.py (lines 107-140):
the fixed container around the newline-joined tab panels. -/
def generate_tabbed_gallery (ps : List Painting) : List Char :=
  tghPre ++ List.intercalate ['\n'] (tabsFor ps) ++ tghPost

/-- A CSV row as handed out by `csv.DictReader`: an association list from
column name to cell text. -/
def CsvRow : Type := List (List Char × List Char)

/-- `csv.DictReader` builds each row by pairing the header with the row
cells. -/
def mkRow (header : List (List Char)) (cells : List (List Char)) : CsvRow :=
  header.zip cells

/-- Python `row[k]`: a missing key raises `KeyError` (the `Except` error). -/
def dictLookup (d : CsvRow) (k : List Char) : Except Unit (List Char) :=
  match d.find? (fun kv => kv.1 == k) with
  | some kv => Except.ok kv.2
  | none => Except.error ()

/-- Python `row.get(k, dflt)`. -/
def dictGet (d : CsvRow) (k : List Char) (dflt : List Char) : List Char :=
  match d.find? (fun kv => kv.1 == k) with
  | some kv => kv.2
  | none => dflt

/-- The row-to-record mapping of `read_paintings_data` (lines 31-39 of
generate_gallery.py; lines 35-43 of generate_gallery_v2.py are identical):
strip every text field, lowercase `location`, and derive `featured` from
the optional column by strip-lowercase comparison with `yes`. -/
def parseRow (d : CsvRow) : Except Unit Painting :=
  match dictLookup d ("title").data with
  | Except.error e => Except.error e
  | Except.ok t =>
    match dictLookup d ("location").data with
    | Except.error e => Except.error e
    | Except.ok l =>
      match dictLookup d ("filename").data with
      | Except.error e => Except.error e
      | Except.ok fn =>
        match dictLookup d ("medium").data with
        | Except.error e => Except.error e
        | Except.ok m =>
          match dictLookup d ("price").data with
          | Except.error e => Except.error e
          | Except.ok pr =>
            match dictLookup d ("description").data with
            | Except.error e => Except.error e
            | Except.ok de =>
              Except.ok
                { title := pyStrip t
                  location := pyLower (pyStrip l)
                  filename := pyStrip fn
                  medium := pyStrip m
                  price := pyStrip pr
                  description := pyStrip de
                  featured :=
                    pyLower (pyStrip (dictGet d ("featured").data [])) == ("yes").data }

/-- The row loop of `read_paintings_data`: a `KeyError` in any row
propagates out of the function. -/
def parseRows : List CsvRow → Except Unit (List Painting)
  | [] => Except.ok []
  | d :: t =>
    match parseRow d with
    | Except.error e => Except.error e
    | Except.ok p =>
      match parseRows t with
      | Except.error e => Except.error e
      | Except.ok r => Except.ok (p :: r)

/-- `read_paintings_data` (lines 20-42 of generate_gallery.py; lines 23-46
of generate_gallery_v2.py differ only in an extra message): `none` is the
`None` sentinel returned when the CSV file does not exist; a `KeyError`
while reading rows is uncaught (`Except.error`). -/
def read_paintings_data (fileExists : Bool) (rows : List CsvRow) :
    Except Unit (Option (List Painting)) :=
  if fileExists = false then Except.ok none
  else (parseRows rows).map (fun l => some l)

/-- The required-field list of the validator (line 49). -/
def requiredFields : List (List Char) :=
  [("title").data, ("location").data, ("filename").data,
   ("medium").data, ("price").data, ("description").data]

/-- `painting.get(field)` of the validator loop (line 51), on the record
structure: the six known keys map to the fields, anything else to the empty
string. -/
def getField (p : Painting) (f : List Char) : List Char :=
  if f = ("title").data then p.title
  else if f = ("location").data then p.location
  else if f = ("filename").data then p.filename
  else if f = ("medium").data then p.medium
  else if f = ("price").data then p.price
  else if f = ("description").data then p.description
  else []

/-- The location enum of the validator (line 55). -/
def validLocations : List (List Char) :=
  [("boston").data, ("delaware").data, ("misc").data]

/-- The image path checked by the validator (line 59). -/
def imagePath (p : Painting) : List Char :=
  ("images/paintings/").data ++ p.location ++ ("/").data ++ p.filename

/-- The three per-row checks of `validate_paintings_data` (lines 48-62):
all six required fields non-empty, location in the enum, image file
present (`fs` plays `os.path.exists`). -/
def paintingChecks (fs : List Char → Bool) (p : Painting) : Bool :=
  requiredFields.all (fun f => !(getField p f).isEmpty)
  && validLocations.contains p.location
  && fs (imagePath p)

/-- `validate_paintings_data` (lines 44-66): the `valid` flag starts true
and is cleared by any failed check of any row. -/
def validate_paintings_data (fs : List Char → Bool) (ps : List Painting) : Bool :=
  ps.all (paintingChecks fs)

/-- Decimal digits of `i`, for the f-string `.hero-painting-{i}`. -/
def natDigits (i : Nat) : List Char := Nat.toDigits 10 i

/-- The replacement hero block (lines 185-189). -/
def heroNewBlock (i : Nat) (p : Painting) : List Char :=
  (".hero-painting-").data ++ natDigits i
  ++ (" \x7b\n            background-image: url(\x27images/paintings/").data
  ++ p.location ++ ("/").data ++ p.filename
  ++ ("\x27);\n            background-size: cover;\n            background-position: center;\n        \x7d").data

/-- One iteration of the hero-background loop (lines 174-190): locate
`.hero-painting-{i} \x7b`, cut the block up to the next closing brace
(Python index `-1` makes the block empty), and replace it. -/
def heroStep (content : List Char) (ip : Nat × Painting) : List Char :=
  let placeholder := (".hero-painting-").data ++ natDigits ip.1 ++ (" \x7b").data
  match strFind content placeholder with
  | none => content
  | some sp =>
    let oldBlock :=
      match strFind (content.drop sp) [ '\x7d' ] with
      | some off => (content.drop sp).take (off + 1)
      | none => []
    pyReplace content oldBlock (heroNewBlock ip.1 ip.2)

/-- The hero-background update of `update_index_html` (lines 168-192):
skipped when no record is featured, otherwise the loop runs over the first
three featured records numbered from 1. -/
def heroUpdate (ps : List Painting) (content : List Char) : List Char :=
  let featured := ps.filter (fun p => p.featured)
  if featured.isEmpty then content
  else (List.enumFrom 1 (featured.take 3)).foldl heroStep content

/-- The on-disk state touched by a run of generate_gallery.py: the two
target documents, whether they exist, and their backup files. -/
structure SiteState where
  indexExists : Bool
  galleryExists : Bool
  indexDoc : List Char
  galleryDoc : List Char
  indexBackup : Option (List Char)
  galleryBackup : Option (List Char)
deriving DecidableEq

/-- `update_index_html` (lines 142-198) as a state transformer: missing
file fails without touching anything; otherwise the backup is overwritten
before the anchors are checked, the splice runs, and on success the hero
update is applied and the document rewritten. -/
def update_index_html (featuredHtml : List Char) (ps : List Painting)
    (st : SiteState) : SiteState × Bool :=
  if st.indexExists = false then (st, false)
  else
    let st1 := { st with indexBackup := some st.indexDoc }
    match spliceAtMarkers indexStartMarker indexEndMarker st.indexDoc featuredHtml with
    | none => (st1, false)
    | some c => ({ st1 with indexDoc := heroUpdate ps c }, true)

/-- `update_gallery_html` (lines 200-229) as a state transformer. -/
def update_gallery_html (galleryHtml : List Char) (st : SiteState) :
    SiteState × Bool :=
  if st.galleryExists = false then (st, false)
  else
    let st1 := { st with galleryBackup := some st.galleryDoc }
    match spliceAtMarkers galleryStartMarker galleryEndMarker st.galleryDoc galleryHtml with
    | none => (st1, false)
    | some c => ({ st1 with galleryDoc := c }, true)

/-- `main` of generate_gallery.py (lines 231-283): read (a `KeyError`
propagates, leaving the state untouched), abort on the `None` sentinel or
an empty record list (`if not paintings`), abort on validation failure,
otherwise generate both fragments and update both documents, stopping if
the index update fails. -/
def main_run (readResult : Except Unit (Option (List Painting)))
    (fs : List Char → Bool) (st : SiteState) : SiteState :=
  match readResult with
  | Except.error _ => st
  | Except.ok none => st
  | Except.ok (some ps) =>
    if ps.isEmpty then st
    else if validate_paintings_data fs ps = false then st
    else
      let r1 := update_index_html (generate_featured_section ps) ps st
      if r1.2 = false then r1.1
      else (update_gallery_html (generate_tabbed_gallery ps) r1.1).1

/-- `generate_painting_card` of generate_gallery_v2.py (lines 77-89),
parameterized by `card_class`; the template starts with a newline. -/
def generate_painting_card_v2 (p : Painting) (cardClass : List Char) : List Char :=
  ("\n            <div class=\x22").data
  ++ cardClass
  ++ ("\x22>\n                <div class=\x22painting-image\x22 style=\x22background-image: url(\x27images/paintings/").data
  ++ p.location ++ ("/").data ++ p.filename
  ++ ("\x27); background-size: cover; background-position: center;\x22></div>\n                <div class=\x22painting-info\x22>\n                    <h3>").data
  ++ p.title
  ++ ("</h3>\n                    <p class=\x22medium\x22>").data
  ++ p.medium
  ++ ("</p>\n                    <p class=\x22description\x22>").data
  ++ p.description
  ++ ("</p>\n                    <div class=\x22price-tag\x22>From $").data
  ++ p.price
  ++ ("</div>\n                    <button class=\x22order-button\x22 onclick=\x22openOrderModal(\x27").data
  ++ p.title
  ++ ("\x27, ").data
  ++ p.price
  ++ (")\x22>ORDER PRINT</button>\n                </div>\n            </div>").data

/-- `generate_featured_section` of generate_gallery_v2.py (lines 91-112). -/
def generate_featured_section_v2 (ps : List Painting) : List Char :=
  let featured := ps.filter (fun p => p.featured)
  if featured.isEmpty then []
  else
    ("\n    <!-- Featured Works Section -->\n    <section class=\x22featured-gallery\x22>\n        <h2>Featured Works</h2>\n        <div class=\x22featured-grid\x22>\n").data
    ++ List.intercalate ['\n']
        (featured.map (fun p => generate_painting_card_v2 p ("painting-card featured-card").data))
    ++ ("\n        </div>\n    </section>\n").data

/-- One tab panel of generate_gallery_v2.py (lines 133-138). -/
def tabContentForV2 (loc cards : List Char) : List Char :=
  ("\n            <div class=\x22tab-content\x22 id=\x22").data
  ++ loc
  ++ ("-tab\x22 style=\x22display: none;\x22>\n                <div class=\x22gallery-grid\x22>\n").data
  ++ cards
  ++ ("\n                </div>\n            </div>").data

/-- The `tab_contents` list of generate_gallery_v2.py (lines 125-138). -/
def tabsForV2 (ps : List Painting) : List (List Char) :=
  locationOrder.filterMap (fun loc =>
    if (by_location ps loc).isEmpty then none
    else
      some (tabContentForV2 loc
        (List.intercalate ['\n']
          ((by_location ps loc).map (fun p => generate_painting_card_v2 p ("painting-card").data)))))

/-- Fixed head of the v2 gallery fragment (lines 141-151); note the line
holding only eight spaces after the heading. -/
def tghPreV2 : List Char :=
  ("\n    <!-- Tabbed Gallery Section -->\n    <section class=\x22gallery\x22 id=\x22gallery\x22>\n        <h2>Browse Collection</h2>\n        \n        <div class=\x22tab-navigation\x22>\n            <button class=\x22tab-button active\x22 onclick=\x22showTab(\x27boston\x27)\x22>Boston, MA</button>\n            <button class=\x22tab-button\x22 onclick=\x22showTab(\x27delaware\x27)\x22>Delaware, OH</button>\n            <button class=\x22tab-button\x22 onclick=\x22showTab(\x27misc\x27)\x22>Other Pieces</button>\n        </div>\n\n").data

/-- `generate_tabbed_gallery` of generate_gallery_v2.py (lines 114-159):
the panels are joined with the empty string. -/
def generate_tabbed_gallery_v2 (ps : List Painting) : List Char :=
  tghPreV2 ++ (tabsForV2 ps).flatten ++ ("\n    </section>\n").data

/-- The fallback start anchor of `update_html_file` (line 182). -/
def gallerySectionMarker : List Char := ("    <!-- Gallery Section -->").data

/-- The cascading start-marker choice of `update_html_file` (lines
177-182). -/
def chooseStartMarkerV2 (content : List Char) : List Char :=
  if pyContains content indexStartMarker then indexStartMarker
  else if pyContains content galleryStartMarker then galleryStartMarker
  else gallerySectionMarker

/-- The content transformation of `update_html_file` of
generate_gallery_v2.py (lines 161-208): splice
`featured + "\n" + gallery + "\n\n"` between the chosen start marker and
the contact marker; `none` when either `find` gives `-1`. -/
def update_html_file (content featuredHtml galleryHtml : List Char) :
    Option (List Char) :=
  match strFind content (chooseStartMarkerV2 content), strFind content indexEndMarker with
  | some s, some e =>
    some (content.take s
      ++ (featuredHtml ++ '\n' :: galleryHtml ++ ('\n' :: '\n' :: []))
      ++ content.drop e)
  | _, _ => none

/-- The presence check of `update_css_styles` (line 217). -/
def cssPresenceMarker : List Char := (".featured-gallery").data

/-- The insertion anchor of `update_css_styles` (line 222). -/
def cssInsertAfter : List Char := ("        /* Gallery Section */").data

/-- First part of the `new_css` literal of `update_css_styles` (lines
224-331), cut just before the `.featured-gallery` selector. -/
def newCssPre : List Char :=
  ("\n        /* Featured Works Section */\n        ").data

/-- Remainder of the `new_css` literal, from the `.featured-gallery`
selector on. -/
def newCssRest : List Char :=
  (".featured-gallery \x7b\n            padding: 8rem 5%;\n            background: var(--canvas-white);\n        \x7d\n\n        .featured-gallery h2 \x7b\n            font-family: \x27Cormorant Garamond\x27, serif;\n            font-size: 3.5rem;\n            font-weight: 300;\n            text-align: center;\n            margin-bottom: 4rem;\n        \x7d\n\n        .featured-grid \x7b\n            display: grid;\n            grid-template-columns: repeat(auto-fit, minmax(400px, 1fr));\n            gap: 3rem;\n            max-width: 1400px;\n            margin: 0 auto;\n        \x7d\n\n        .featured-card \x7b\n            background: white;\n            overflow: hidden;\n            transition: transform 0.4s ease, box-shadow 0.4s ease;\n        \x7d\n\n        .featured-card:hover \x7b\n            transform: translateY(-10px);\n            box-shadow: 0 25px 50px rgba(0, 0, 0, 0.15);\n        \x7d\n\n        .featured-card .painting-image \x7b\n            height: 450px;\n        \x7d\n\n        /* Tabbed Gallery Section */\n        .tab-navigation \x7b\n            display: flex;\n            justify-content: center;\n            gap: 0;\n            margin-bottom: 4rem;\n            border-bottom: 2px solid var(--gallery-gray);\n        \x7d\n\n        .tab-button \x7b\n            padding: 1rem 2.5rem;\n            background: transparent;\n            border: none;\n            font-family: \x27Manrope\x27, sans-serif;\n            font-size: 1rem;\n            font-weight: 500;\n            color: #999;\n            cursor: pointer;\n            transition: all 0.3s ease;\n            border-bottom: 3px solid transparent;\n            letter-spacing: 0.5px;\n        \x7d\n\n        .tab-button:hover \x7b\n            color: var(--accent-rust);\n        \x7d\n\n        .tab-button.active \x7b\n            color: var(--ink-black);\n            border-bottom: 3px solid var(--accent-rust);\n        \x7d\n\n        .tab-content \x7b\n            animation: fadeIn 0.4s ease-in;\n        \x7d\n\n        @keyframes fadeIn \x7b\n            from \x7b\n                opacity: 0;\n                transform: translateY(10px);\n            \x7d\n            to \x7b\n                opacity: 1;\n                transform: translateY(0);\n            \x7d\n        \x7d\n\n        .painting-info .description \x7b\n            font-size: 0.95rem;\n            color: #666;\n            line-height: 1.6;\n            margin-bottom: 1.5rem;\n        \x7d\n\n        @media (max-width: 968px) \x7b\n            .featured-grid \x7b\n                grid-template-columns: 1fr;\n            \x7d\n\n            .tab-navigation \x7b\n                flex-wrap: wrap;\n            \x7d\n\n            .tab-button \x7b\n                padding: 0.8rem 1.5rem;\n                font-size: 0.9rem;\n            \x7d\n        \x7d\n\n        ").data

/-- The `new_css` literal of `update_css_styles` (lines 224-331), the two
parts rejoined. -/
def newCss : List Char := newCssPre ++ newCssRest

/-- `update_css_styles` of generate_gallery_v2.py (lines 210-339) on the
document text: a no-op when the identifying selector is already present,
otherwise the CSS block is inserted after the existing gallery-styles
comment. -/
def update_css_styles (content : List Char) : List Char :=
  if pyContains content cssPresenceMarker then content
  else pyReplace content cssInsertAfter (cssInsertAfter ++ newCss)

/-- The presence check of `add_tab_javascript` (line 348). -/
def jsPresenceMarker : List Char := ("function showTab(").data

/-- The insertion anchor of `add_tab_javascript` (line 353). -/
def scriptMarker : List Char := ("        // Smooth scrolling for navigation").data

/-- First part of the `tab_js` literal of `add_tab_javascript` (lines
355-388), cut just before `function showTab(`. -/
def tabJsPre : List Char :=
  ("\n        // Tab switching functionality\n        ").data

/-- Remainder of the `tab_js` literal, from `function showTab(` on. -/
def tabJsRest : List Char :=
  ("function showTab(tabName) \x7b\n            // Hide all tab contents\n            const tabContents = document.querySelectorAll(\x27.tab-content\x27);\n            tabContents.forEach(content => \x7b\n                content.style.display = \x27none\x27;\n            \x7d);\n            \n            // Remove active class from all buttons\n            const tabButtons = document.querySelectorAll(\x27.tab-button\x27);\n            tabButtons.forEach(button => \x7b\n                button.classList.remove(\x27active\x27);\n            \x7d);\n            \n            // Show selected tab\n            const selectedTab = document.getElementById(tabName + \x27-tab\x27);\n            if (selectedTab) \x7b\n                selectedTab.style.display = \x27block\x27;\n            \x7d\n            \n            // Add active class to clicked button\n            event.target.classList.add(\x27active\x27);\n        \x7d\n\n        // Show Boston tab by default on page load\n        window.addEventListener(\x27DOMContentLoaded\x27, () => \x7b\n            const bostonTab = document.getElementById(\x27boston-tab\x27);\n            if (bostonTab) \x7b\n                bostonTab.style.display = \x27block\x27;\n            \x7d\n        \x7d);\n\n        ").data

/-- The `tab_js` literal of `add_tab_javascript` (lines 355-388), the two
parts rejoined. -/
def tabJs : List Char := tabJsPre ++ tabJsRest

/-- `add_tab_javascript` of generate_gallery_v2.py (lines 341-395) on the
document text: a no-op when `function showTab(` is already present,
otherwise the script block is inserted before the smooth-scrolling
comment. -/
def add_tab_javascript (content : List Char) : List Char :=
  if pyContains content jsPresenceMarker then content
  else pyReplace content scriptMarker (tabJs ++ ("\n        ").data ++ scriptMarker)

lemma strFind_nil (pat : List Char) :
    strFind [] pat = if pat.isPrefixOf [] then some 0 else none := rfl

lemma strFind_cons (c : Char) (t pat : List Char) :
    strFind (c :: t) pat =
      if pat.isPrefixOf (c :: t) then some 0
      else Option.map (· + 1) (strFind t pat) := rfl

/-- A hit of `strFind` is an occurrence. -/
lemma strFind_prefix_of_some {s pat : List Char} {j : Nat}
    (h : strFind s pat = some j) : pat <+: s.drop j := by
  induction s generalizing j with
  | nil =>
    rw [strFind_nil] at h
    split at h
    · rename_i hp
      injection h with h0
      subst h0
      simpa using List.isPrefixOf_iff_prefix.mp hp
    · cases h
  | cons c t ih =>
    rw [strFind_cons] at h
    split at h
    · rename_i hp
      injection h with h0
      subst h0
      simpa using List.isPrefixOf_iff_prefix.mp hp
    · cases hf : strFind t pat with
      | none => rw [hf] at h; cases h
      | some j0 =>
        rw [hf] at h
        injection h with h0
        subst h0
        simpa using ih hf

/-- A hit of `strFind` is the first occurrence. -/
lemma strFind_min_of_some {s pat : List Char} {j : Nat}
    (h : strFind s pat = some j) : ∀ i, i < j → ¬ pat <+: s.drop i := by
  induction s generalizing j with
  | nil =>
    rw [strFind_nil] at h
    split at h
    · injection h with h0; omega
    · cases h
  | cons c t ih =>
    rw [strFind_cons] at h
    split at h
    · injection h with h0; omega
    · rename_i hp
      cases hf : strFind t pat with
      | none => rw [hf] at h; cases h
      | some j0 =>
        rw [hf] at h
        have h0 : j0 + 1 = j := by simpa using h
        subst h0
        intro i hi
        cases i with
        | zero =>
          intro hc
          exact hp (List.isPrefixOf_iff_prefix.mpr (by simpa using hc))
        | succ i0 =>
          have := ih hf i0 (by omega)
          simpa using this

/-- A miss of `strFind` means no occurrence at all. -/
lemma strFind_none_no_occurrence {s pat : List Char}
    (h : strFind s pat = none) : ∀ i, ¬ pat <+: s.drop i := by
  induction s with
  | nil =>
    rw [strFind_nil] at h
    split at h
    · cases h
    · rename_i hp
      intro i hc
      simp at hc
      exact hp (List.isPrefixOf_iff_prefix.mpr (by simp [hc]))
  | cons c t ih =>
    rw [strFind_cons] at h
    split at h
    · cases h
    · rename_i hp
      have ht : strFind t pat = none := by
        cases hf : strFind t pat with
        | none => rfl
        | some j0 => rw [hf] at h; cases h
      intro i
      cases i with
      | zero =>
        intro hc
        exact hp (List.isPrefixOf_iff_prefix.mpr (by simpa using hc))
      | succ i0 => simpa using ih ht i0

/-- A hit of `strFind` lies inside the searched string. -/
lemma strFind_le_length {s pat : List Char} {j : Nat}
    (h : strFind s pat = some j) : j ≤ s.length := by
  induction s generalizing j with
  | nil =>
    rw [strFind_nil] at h
    split at h
    · injection h with h0; omega
    · cases h
  | cons c t ih =>
    rw [strFind_cons] at h
    split at h
    · injection h with h0; omega
    · cases hf : strFind t pat with
      | none => rw [hf] at h; cases h
      | some j0 =>
        rw [hf] at h
        injection h with h0
        subst h0
        have := ih hf
        simp
        omega

/-- Any occurrence forces `strFind` to hit at or before it. -/
lemma strFind_some_le_of_occurrence {s pat : List Char} {i : Nat}
    (h : pat <+: s.drop i) : ∃ j, strFind s pat = some j ∧ j ≤ i := by
  cases hf : strFind s pat with
  | none => exact absurd h (strFind_none_no_occurrence hf i)
  | some j =>
    refine ⟨j, rfl, ?_⟩
    by_contra hgt
    exact strFind_min_of_some hf i (by omega) h

/-- `strFind` computed from an occurrence below which there is none. -/
lemma strFind_eq_some_of {s pat : List Char} {j : Nat}
    (h1 : pat <+: s.drop j) (h2 : ∀ i, i < j → ¬ pat <+: s.drop i) :
    strFind s pat = some j := by
  obtain ⟨j2, hf, hle⟩ := strFind_some_le_of_occurrence h1
  rcases Nat.lt_or_ge j2 j with hlt | hge
  · exact absurd (strFind_prefix_of_some hf) (h2 j2 hlt)
  · have : j2 = j := by omega
    rw [this] at hf
    exact hf

/-- `strFind` computed to `none` from the absence of occurrences. -/
lemma strFind_eq_none_of {s pat : List Char}
    (h : ∀ i, ¬ pat <+: s.drop i) : strFind s pat = none := by
  cases hf : strFind s pat with
  | none => rfl
  | some j => exact absurd (strFind_prefix_of_some hf) (h j)

lemma take_append_of_le_len {X Y : List Char} {k : Nat} (h : k ≤ X.length) :
    (X ++ Y).take k = X.take k := by
  rw [List.take_append_eq_append_take, Nat.sub_eq_zero_of_le h]
  simp

lemma drop_append_of_le_len {X Y : List Char} {k : Nat} (h : k ≤ X.length) :
    (X ++ Y).drop k = X.drop k ++ Y := by
  rw [List.drop_append_eq_append_drop, Nat.sub_eq_zero_of_le h]
  simp

lemma drop_append_of_ge_len {X Y : List Char} {k : Nat} (h : X.length ≤ k) :
    (X ++ Y).drop k = Y.drop (k - X.length) := by
  rw [List.drop_append_eq_append_drop, List.drop_eq_nil_of_le h]
  simp

/-- A prefix of `C ++ E` at least as long as `C` is `C` plus a prefix of
`E`. -/
lemma prefix_append_split {m C E : List Char} (h : m <+: C ++ E)
    (hlen : C.length ≤ m.length) : m = C ++ E.take (m.length - C.length) := by
  have h2 := List.prefix_iff_eq_take.mp h
  rw [List.take_append_eq_append_take, List.take_of_length_le hlen] at h2
  exact h2

/-- A prefix of `C ++ c :: D` longer than `C` contains `c`. -/
lemma mem_of_prefix_cross {m C D : List Char} {c : Char}
    (h : m <+: C ++ c :: D) (hlen : C.length < m.length) : c ∈ m := by
  have h1 := prefix_append_split h (Nat.le_of_lt hlen)
  cases hk : m.length - C.length with
  | zero => omega
  | succ k =>
    rw [hk, List.take_succ_cons] at h1
    rw [h1]
    exact List.mem_append_right _ (List.mem_cons_self _ _)

/-- An occurrence inside `s.take n` is an occurrence inside `s`. -/
lemma prefix_drop_of_prefix_drop_take {m s : List Char} {n i : Nat}
    (h : m <+: (s.take n).drop i) : m <+: s.drop i := by
  rw [List.drop_take] at h
  exact h.trans (List.take_prefix _ _)

/-- An occurrence at or beyond the left part of an append is an occurrence
in the right part. -/
lemma prefix_drop_right_of_append {m X Y : List Char} {i : Nat}
    (hi : X.length ≤ i) (h : m <+: (X ++ Y).drop i) :
    m <+: Y.drop (i - X.length) := by
  rwa [drop_append_of_ge_len hi] at h

/-- An occurrence that fits inside the left part of an append. -/
lemma prefix_drop_left_of_append {m X Y : List Char} {i : Nat}
    (h : m <+: (X ++ Y).drop i) (hfit : i + m.length ≤ X.length) :
    m <+: X.drop i := by
  have hi : i ≤ X.length := by omega
  rw [drop_append_of_le_len hi] at h
  have h2 := List.prefix_iff_eq_take.mp h
  rw [List.take_append_eq_append_take] at h2
  have hz : m.length - (X.drop i).length = 0 := by
    simp [List.length_drop]
    omega
  rw [hz] at h2
  simp at h2
  rw [h2]
  exact List.take_prefix _ _

/-- Any occurrence makes `pyContains` true. -/
lemma pyContains_of_occurrence {s pat : List Char} {i : Nat}
    (h : pat <+: s.drop i) : pyContains s pat = true := by
  obtain ⟨j, hj, _⟩ := strFind_some_le_of_occurrence h
  simp [pyContains, hj]

/-- `replaceAll` is the identity when the pattern never occurs. -/
lemma replaceAll_of_absent {pat repl s : List Char}
    (h : strFind s pat = none) : replaceAll pat repl s = s := by
  induction s with
  | nil => simp [replaceAll]
  | cons c t ih =>
    rw [strFind_cons] at h
    split at h
    · cases h
    · rename_i hp
      have ht : strFind t pat = none := by
        cases hf : strFind t pat with
        | none => rfl
        | some j0 => rw [hf] at h; cases h
      rw [replaceAll, if_neg hp, ih ht]

/-- When the pattern occurs, `replaceAll` plants the replacement text. -/
lemma replaceAll_of_present {pat repl s : List Char} {j : Nat}
    (hne : pat ≠ []) (h : strFind s pat = some j) :
    ∃ a b, replaceAll pat repl s = a ++ repl ++ b := by
  induction s generalizing j with
  | nil =>
    rw [strFind_nil] at h
    split at h
    · rename_i hp
      have hp2 := List.isPrefixOf_iff_prefix.mp hp
      exact absurd (List.prefix_nil.mp hp2) hne
    · cases h
  | cons c t ih =>
    by_cases hp : pat.isPrefixOf (c :: t)
    · exact ⟨[], replaceAll pat repl (t.drop (pat.length - 1)), by
        rw [replaceAll, if_pos hp]; simp⟩
    · rw [strFind_cons, if_neg hp] at h
      cases hf : strFind t pat with
      | none => rw [hf] at h; cases h
      | some j0 =>
        obtain ⟨a, b, hab⟩ := ih hf
        exact ⟨c :: a, b, by rw [replaceAll, if_neg hp, hab]; simp⟩

/-- After a successful insertion the planted replacement text keeps any of
its substrings visible in the document. -/
lemma pyContains_replaceAll_of_planted {content pat X Y idTok : List Char}
    {j : Nat} (hne : pat ≠ []) (hfound : strFind content pat = some j)
    (hXY : idTok <+: Y) :
    pyContains (replaceAll pat (X ++ Y) content) idTok = true := by
  obtain ⟨a, b, hab⟩ := replaceAll_of_present hne hfound
  rw [hab]
  refine pyContains_of_occurrence (i := (a ++ X).length) ?_
  have h2 : (a ++ (X ++ Y) ++ b).drop ((a ++ X).length) = Y ++ b := by
    rw [show a ++ (X ++ Y) ++ b = (a ++ X) ++ (Y ++ b) by simp, List.drop_left]
  rw [h2]
  exact hXY.trans (List.prefix_append Y b)

/-- C6: the one-time CSS-block and script-function patches of
generate_gallery_v2.py are idempotent: a document already holding the
identifying substring is returned unchanged, and re-applying either patch
to any patched document changes nothing, so repeated runs never duplicate
the inserted block. -/
theorem c6_onetime_patches_idempotent :
    (∀ content, pyContains content cssPresenceMarker = true →
      update_css_styles content = content)
    ∧ (∀ content,
        update_css_styles (update_css_styles content) = update_css_styles content)
    ∧ (∀ content, pyContains content jsPresenceMarker = true →
        add_tab_javascript content = content)
    ∧ (∀ content,
        add_tab_javascript (add_tab_javascript content) = add_tab_javascript content) := by
  have hcssA : ∀ content, pyContains content cssPresenceMarker = true →
      update_css_styles content = content := by
    intro content h
    unfold update_css_styles
    rw [if_pos h]
  have hjsA : ∀ content, pyContains content jsPresenceMarker = true →
      add_tab_javascript content = content := by
    intro content h
    unfold add_tab_javascript
    rw [if_pos h]
  refine ⟨hcssA, ?_, hjsA, ?_⟩
  · intro content
    by_cases h : pyContains content cssPresenceMarker = true
    · have hc := hcssA content h
      rw [hc]
      exact hc
    · have hdef : update_css_styles content =
          replaceAll cssInsertAfter (cssInsertAfter ++ newCss) content := by
        unfold update_css_styles pyReplace
        rw [if_neg h, if_neg (by decide : ¬ cssInsertAfter.isEmpty = true)]
      cases hf : strFind content cssInsertAfter with
      | none =>
        have hid : update_css_styles content = content := by
          rw [hdef, replaceAll_of_absent hf]
        rw [hid]
        exact hid
      | some j =>
        have hr : pyContains (update_css_styles content) cssPresenceMarker = true := by
          rw [hdef,
            show cssInsertAfter ++ newCss = (cssInsertAfter ++ newCssPre) ++ newCssRest by
              simp [newCss]]
          exact pyContains_replaceAll_of_planted (by decide) hf
            (List.isPrefixOf_iff_prefix.mp (by decide))
        exact hcssA _ hr
  · intro content
    by_cases h : pyContains content jsPresenceMarker = true
    · have hc := hjsA content h
      rw [hc]
      exact hc
    · have hdef : add_tab_javascript content =
          replaceAll scriptMarker (tabJs ++ ("\n        ").data ++ scriptMarker) content := by
        unfold add_tab_javascript pyReplace
        rw [if_neg h, if_neg (by decide : ¬ scriptMarker.isEmpty = true)]
      cases hf : strFind content scriptMarker with
      | none =>
        have hid : add_tab_javascript content = content := by
          rw [hdef, replaceAll_of_absent hf]
        rw [hid]
        exact hid
      | some j =>
        have hr : pyContains (add_tab_javascript content) jsPresenceMarker = true := by
          rw [hdef,
            show tabJs ++ ("\n        ").data ++ scriptMarker =
                tabJsPre ++ (tabJsRest ++ (("\n        ").data ++ scriptMarker)) by
              simp [tabJs]]
          exact pyContains_replaceAll_of_planted (by decide) hf
            ((List.isPrefixOf_iff_prefix.mp (by decide)).trans
              (List.prefix_append tabJsRest _))
        exact hjsA _ hr
  
/-- C6 witness: both patches leave a document already holding the
identifying substring unchanged. -/
theorem c6_witness :
    update_css_styles cssPresenceMarker = cssPresenceMarker
    ∧ add_tab_javascript jsPresenceMarker = jsPresenceMarker :=
  ⟨c6_onetime_patches_idempotent.1 cssPresenceMarker (by decide),
   c6_onetime_patches_idempotent.2.2.1 jsPresenceMarker (by decide)⟩

lemma filterMap_guard {α β : Type} (P : α → Bool) (g : α → β) (L : List α) :
    L.filterMap (fun x => if P x then none else some (g x)) =
      (L.filter (fun x => !P x)).map g := by
  induction L with
  | nil => rfl
  | cons a t ih =>
    by_cases h : P a = true <;> simp [List.filterMap_cons, h, ih]

/-- C5: for every record set the tab list holds, in the fixed order
boston, delaware, misc, exactly one panel per non-empty bucket (none for
an empty bucket), the panel for a bucket being built from one card per
record of that bucket in source order; the emitted buckets and their card
counts are invariant under permuting the input.  Stated for
`generate_tabbed_gallery` of both scripts. -/
theorem c5_grouped_panels (ps qs : List Painting) (hperm : ps.Perm qs) :
    tabsFor ps =
      (locationOrder.filter (fun loc => !(by_location ps loc).isEmpty)).map
        (fun loc => tabContentFor loc
          (List.intercalate ['\n'] ((by_location ps loc).map generate_painting_card)))
    ∧ (∀ loc, ((by_location ps loc).map generate_painting_card).length
        = ps.countP (fun p => p.location == loc))
    ∧ locationOrder.filter (fun loc => !(by_location ps loc).isEmpty)
        = locationOrder.filter (fun loc => !(by_location qs loc).isEmpty)
    ∧ (∀ loc, ((by_location ps loc).map generate_painting_card).length
        = ((by_location qs loc).map generate_painting_card).length)
    ∧ tabsForV2 ps =
      (locationOrder.filter (fun loc => !(by_location ps loc).isEmpty)).map
        (fun loc => tabContentForV2 loc
          (List.intercalate ['\n'] ((by_location ps loc).map
            (fun p => generate_painting_card_v2 p ("painting-card").data)))) := by
  have hlen : ∀ loc, (by_location ps loc).length = (by_location qs loc).length :=
    fun loc => by
      simpa [by_location] using (hperm.filter (fun p => p.location == loc)).length_eq
  refine ⟨?_, ?_, ?_, ?_, ?_⟩
  · exact filterMap_guard _ _ _
  · intro loc
    simp [by_location, List.countP_eq_length_filter]
  · refine List.filter_congr ?_
    intro loc _
    have h1 := hlen loc
    by_cases hA : by_location ps loc = []
    · have hB : by_location qs loc = [] := by
        rw [← List.length_eq_zero, ← h1, hA]
        rfl
      rw [hA, hB]
    · have hB : by_location qs loc ≠ [] := by
        intro hB0
        rw [hB0] at h1
        exact hA (List.length_eq_zero.mp h1)
      obtain ⟨a, as, hAeq⟩ := List.exists_cons_of_ne_nil hA
      obtain ⟨b, bs, hBeq⟩ := List.exists_cons_of_ne_nil hB
      rw [hAeq, hBeq]
      rfl
  · intro loc
    simp only [List.length_map]
    exact hlen loc
  · exact filterMap_guard _ _ _

/-- A featured boston record used by witnesses. -/
def sampleBoston : Painting :=
  { title := ("Dawn").data, location := ("boston").data,
    filename := ("dawn.jpg").data, medium := ("Oil").data,
    price := ("100").data, description := ("A dawn").data, featured := true }

/-- A non-featured misc record used by witnesses. -/
def sampleMisc : Painting :=
  { title := ("Mist").data, location := ("misc").data,
    filename := ("mist.jpg").data, medium := ("Oil").data,
    price := ("200").data, description := ("A mist").data, featured := false }

/-- A record with a location outside the enum, used by witnesses. -/
def sampleBadLocation : Painting :=
  { title := ("Lost").data, location := ("chicago").data,
    filename := ("lost.jpg").data, medium := ("Oil").data,
    price := ("300").data, description := ("Lost one").data, featured := false }

/-- A small site state used by witnesses. -/
def sampleState : SiteState :=
  { indexExists := true, galleryExists := true,
    indexDoc := ("A").data, galleryDoc := ("B").data,
    indexBackup := none, galleryBackup := none }

/-- C5 witness: on a two-record set and its reversal the emitted buckets
agree. -/
theorem c5_witness :
    ([sampleBoston, sampleMisc].Perm [sampleMisc, sampleBoston])
    ∧ locationOrder.filter
        (fun loc => !(by_location [sampleBoston, sampleMisc] loc).isEmpty)
      = locationOrder.filter
        (fun loc => !(by_location [sampleMisc, sampleBoston] loc).isEmpty) :=
  ⟨by decide, (c5_grouped_panels _ _ (by decide)).2.2.1⟩

/-- C7: when no record carries the featured flag, both featured-section
generators return the empty string, the warning guard fires (a console
warning, not an error: both functions are total and return normally), and
`main` proceeds past the generators into the file-update stage with the
empty fragment. -/
theorem c7_empty_featured_warns_and_continues (ps : List Painting)
    (hf : ps.filter (fun p => p.featured) = []) :
    generate_featured_section ps = []
    ∧ generate_featured_section_v2 ps = []
    ∧ featuredWarningFires ps = true
    ∧ ∀ fs st, validate_paintings_data fs ps = true → ps ≠ [] →
        main_run (Except.ok (some ps)) fs st =
          (if (update_index_html [] ps st).2 = false
           then (update_index_html [] ps st).1
           else (update_gallery_html (generate_tabbed_gallery ps)
             (update_index_html [] ps st).1).1) := by
  have h1 : generate_featured_section ps = [] := by
    unfold generate_featured_section
    rw [hf]
    rfl
  refine ⟨h1, ?_, ?_, ?_⟩
  · unfold generate_featured_section_v2
    rw [hf]
    rfl
  · unfold featuredWarningFires
    rw [hf]
    rfl
  · intro fs st hv hne
    unfold main_run
    dsimp only
    rw [if_neg (by simp [List.isEmpty_iff, hne]), if_neg (by simp [hv]), h1]

/-- C7 witness: a concrete record set with no featured record. -/
theorem c7_witness :
    ([sampleMisc].filter (fun p => p.featured) = [])
    ∧ generate_featured_section [sampleMisc] = []
    ∧ featuredWarningFires [sampleMisc] = true :=
  ⟨by decide,
   (c7_empty_featured_warns_and_continues [sampleMisc] (by decide)).1,
   (c7_empty_featured_warns_and_continues [sampleMisc] (by decide)).2.2.1⟩

/-- C3: when the validator records any violation (failed required-field,
enum or asset check for some row), `main` returns before the generator and
splicer stages, so the whole site state - both target documents and both
backup files - is unchanged. -/
theorem c3_validation_failure_blocks_writes (ps : List Painting)
    (fs : List Char → Bool) (st : SiteState)
    (hbad : ∃ p ∈ ps, paintingChecks fs p = false) :
    main_run (Except.ok (some ps)) fs st = st := by
  have hv : validate_paintings_data fs ps = false := by
    obtain ⟨p, hp, hc⟩ := hbad
    unfold validate_paintings_data
    simp only [List.all_eq_false]
    exact ⟨p, hp, by simp [hc]⟩
  unfold main_run
  dsimp only
  by_cases hps : ps.isEmpty = true
  · rw [if_pos hps]
  · rw [if_neg hps, if_pos hv]

/-- C3 witness: a record with an out-of-enum location leaves a concrete
state untouched. -/
theorem c3_witness :
    (∃ p ∈ [sampleBadLocation], paintingChecks (fun _ => true) p = false)
    ∧ main_run (Except.ok (some [sampleBadLocation])) (fun _ => true) sampleState
        = sampleState :=
  ⟨⟨sampleBadLocation, by decide, by decide⟩,
   c3_validation_failure_blocks_writes _ _ _
     ⟨sampleBadLocation, by decide, by decide⟩⟩

/-- Modelled from the spec (section 4.4 / Testable Properties): the spec
describes the post-splice document as the prefix up to AND INCLUDING the
start anchor, a newline, the fragment, a newline, then the suffix from the
end anchor on.  Defined here only for comparison against the code. -/
def spliceAsSpecified (m1 m2 content frag : List Char) : Option (List Char) :=
  match strFind content m1, strFind content m2 with
  | some s, some e =>
    some (content.take (s + m1.length) ++ '\n' :: (frag ++ '\n' :: content.drop e))
  | _, _ => none

/-- A well-formed index document: start anchor, then text, then end
anchor, then text. -/
def c1Doc : List Char :=
  indexStartMarker ++ ("\nX\n").data ++ indexEndMarker ++ ("\nY\n").data

/-- C1 counterexample: on a document holding both anchors in order, with
the fragment generated for an empty record set, the code splice differs
from the spec formula - the code consumes the start-anchor text and puts
no newline between the prefix and the fragment. -/
theorem c1_counterexample :
    spliceAtMarkers indexStartMarker indexEndMarker c1Doc
        (generate_featured_section [])
      ≠ spliceAsSpecified indexStartMarker indexEndMarker c1Doc
        (generate_featured_section []) := by
  decide

/-- C1 (amended): with both anchors found, the post-splice document is the
prefix STRICTLY BEFORE the start anchor, then the fragment, then one
newline, then the suffix from the end-anchor start (the end-anchor text
preserved); the start-anchor text is consumed by the splice and is
re-supplied as the first line of the generated gallery fragment. -/
theorem c1_amended_splice_shape (m1 m2 content frag : List Char) (s e : Nat)
    (h1 : strFind content m1 = some s) (h2 : strFind content m2 = some e) :
    spliceAtMarkers m1 m2 content frag
        = some (content.take s ++ frag ++ '\n' :: content.drop e)
    ∧ m2 <+: content.drop e
    ∧ (∀ ps, galleryStartMarker <+: generate_tabbed_gallery ps) := by
  refine ⟨by simp [spliceAtMarkers, h1, h2], strFind_prefix_of_some h2, ?_⟩
  intro ps
  unfold generate_tabbed_gallery
  have hp : galleryStartMarker <+: tghPre :=
    List.isPrefixOf_iff_prefix.mp (by decide)
  exact (hp.trans (List.prefix_append _ _)).trans (List.prefix_append _ _)

/-- C1 witness: the amended splice shape at a concrete document. -/
theorem c1_witness :
    strFind c1Doc indexStartMarker = some 0
    ∧ strFind c1Doc indexEndMarker = some 38
    ∧ spliceAtMarkers indexStartMarker indexEndMarker c1Doc (("F").data)
        = some (c1Doc.take 0 ++ ("F").data ++ '\n' :: c1Doc.drop 38) :=
  ⟨by decide, by decide,
   (c1_amended_splice_shape _ _ c1Doc (("F").data) 0 38
     (by decide) (by decide)).1⟩

/-- A document holding both gallery anchors out of order: the end anchor
first, the start anchor after it. -/
def c2Doc : List Char := galleryEndMarker ++ galleryStartMarker

/-- A site state whose gallery document has the anchors out of order. -/
def c2State : SiteState :=
  { indexExists := true, galleryExists := true,
    indexDoc := [], galleryDoc := c2Doc,
    indexBackup := none, galleryBackup := none }

/-- C2 counterexample: on a gallery document whose start anchor comes
AFTER its end anchor (both present), `update_gallery_html` reports
success and rewrites the document - the ordering requirement is not
enforced and a rewrite does occur. -/
theorem c2_counterexample :
    strFind c2Doc galleryEndMarker = some 0
    ∧ strFind c2Doc galleryStartMarker = some 19
    ∧ (update_gallery_html (("F").data) c2State).2 = true
    ∧ (update_gallery_html (("F").data) c2State).1.galleryDoc
        ≠ c2State.galleryDoc := by
  refine ⟨by decide, by decide, by decide, by decide⟩

/-- C2 (amended): the splicer fails - and, for `update_gallery_html`,
leaves the target document untouched - exactly when one of the anchors is
absent; ordering is NOT checked: whenever both anchors are found, at any
relative positions, the rewrite proceeds. -/
theorem c2_amended_fail_iff_absent (m1 m2 content frag : List Char) :
    (spliceAtMarkers m1 m2 content frag = none ↔
      strFind content m1 = none ∨ strFind content m2 = none)
    ∧ (∀ s e, strFind content m1 = some s → strFind content m2 = some e →
        spliceAtMarkers m1 m2 content frag
          = some (content.take s ++ frag ++ '\n' :: content.drop e))
    ∧ (∀ st : SiteState, st.galleryExists = true →
        spliceAtMarkers galleryStartMarker galleryEndMarker st.galleryDoc frag
          = none →
        (update_gallery_html frag st).1.galleryDoc = st.galleryDoc
        ∧ (update_gallery_html frag st).2 = false)
    ∧ (∀ g, update_html_file content frag g = none ↔
        strFind content (chooseStartMarkerV2 content) = none
        ∨ strFind content indexEndMarker = none) := by
  refine ⟨?_, ?_, ?_, ?_⟩
  · unfold spliceAtMarkers
    cases hf1 : strFind content m1 <;> cases hf2 : strFind content m2 <;> simp
  · intro s e h1 h2
    simp [spliceAtMarkers, h1, h2]
  · intro st hex hnone
    unfold update_gallery_html
    rw [if_neg (by simp [hex]), hnone]
    exact ⟨rfl, rfl⟩
  · intro g
    unfold update_html_file
    cases hf1 : strFind content (chooseStartMarkerV2 content)
      <;> cases hf2 : strFind content indexEndMarker <;> simp

/-- C2 witness: out-of-order anchors still produce a rewrite, and a
document lacking the anchors makes the splice fail. -/
theorem c2_witness :
    spliceAtMarkers galleryStartMarker galleryEndMarker c2Doc (("F").data)
        = some (c2Doc.take 19 ++ ("F").data ++ '\n' :: c2Doc.drop 0)
    ∧ spliceAtMarkers galleryStartMarker galleryEndMarker (("no anchors").data)
        (("F").data) = none :=
  ⟨(c2_amended_fail_iff_absent _ _ c2Doc (("F").data)).2.1 19 0
      (by decide) (by decide),
   (c2_amended_fail_iff_absent _ _ (("no anchors").data) (("F").data)).1.mpr
      (Or.inl (by decide))⟩

lemma head_dropWhile_not {p : Char → Bool} {l : List Char} {c : Char}
    (h : (l.dropWhile p).head? = some c) : p c = false := by
  induction l with
  | nil => cases h
  | cons a t ih =>
    rw [List.dropWhile_cons] at h
    split at h
    · exact ih h
    · rename_i hp
      injection h with h0
      subst h0
      exact Bool.eq_false_iff.mpr hp

/-- `pyStrip` leaves no leading whitespace. -/
lemma pyStrip_head_not_space {l : List Char} {c : Char}
    (h : (pyStrip l).head? = some c) : pyIsSpace c = false := by
  unfold pyStrip at h
  rw [List.head?_reverse] at h
  obtain ⟨w, hw⟩ :=
    List.dropWhile_suffix (l := (l.dropWhile pyIsSpace).reverse) pyIsSpace
  have hY : (l.dropWhile pyIsSpace).reverse.dropWhile pyIsSpace ≠ [] := by
    intro h0
    rw [h0] at h
    cases h
  rw [show ((l.dropWhile pyIsSpace).reverse.dropWhile pyIsSpace).getLast?
        = ((l.dropWhile pyIsSpace).reverse).getLast? by
      conv_rhs => rw [← hw]
      exact (List.getLast?_append_of_ne_nil w hY).symm] at h
  rw [List.getLast?_reverse] at h
  exact head_dropWhile_not h

/-- `pyStrip` leaves no trailing whitespace. -/
lemma pyStrip_getLast_not_space {l : List Char} {c : Char}
    (h : (pyStrip l).getLast? = some c) : pyIsSpace c = false := by
  unfold pyStrip at h
  rw [List.getLast?_reverse] at h
  exact head_dropWhile_not h

/-- The record produced by a successful `parseRow`, field by field. -/
lemma parseRow_ok {d : CsvRow} {p : Painting} (h : parseRow d = Except.ok p) :
    (∃ v, dictLookup d (("title").data) = Except.ok v ∧ p.title = pyStrip v)
    ∧ (∃ v, dictLookup d (("location").data) = Except.ok v
        ∧ p.location = pyLower (pyStrip v))
    ∧ (∃ v, dictLookup d (("filename").data) = Except.ok v ∧ p.filename = pyStrip v)
    ∧ (∃ v, dictLookup d (("medium").data) = Except.ok v ∧ p.medium = pyStrip v)
    ∧ (∃ v, dictLookup d (("price").data) = Except.ok v ∧ p.price = pyStrip v)
    ∧ (∃ v, dictLookup d (("description").data) = Except.ok v
        ∧ p.description = pyStrip v)
    ∧ p.featured
        = (pyLower (pyStrip (dictGet d (("featured").data) [])) == ("yes").data) := by
  unfold parseRow at h
  cases h1 : dictLookup d (("title").data) with
  | error e => rw [h1] at h; exact Except.noConfusion h
  | ok t =>
  rw [h1] at h
  cases h2 : dictLookup d (("location").data) with
  | error e => rw [h2] at h; exact Except.noConfusion h
  | ok l =>
  rw [h2] at h
  cases h3 : dictLookup d (("filename").data) with
  | error e => rw [h3] at h; exact Except.noConfusion h
  | ok fn =>
  rw [h3] at h
  cases h4 : dictLookup d (("medium").data) with
  | error e => rw [h4] at h; exact Except.noConfusion h
  | ok m =>
  rw [h4] at h
  cases h5 : dictLookup d (("price").data) with
  | error e => rw [h5] at h; exact Except.noConfusion h
  | ok pr =>
  rw [h5] at h
  cases h6 : dictLookup d (("description").data) with
  | error e => rw [h6] at h; exact Except.noConfusion h
  | ok de =>
  rw [h6] at h
  injection h with h0
  subst h0
  exact ⟨⟨t, rfl, rfl⟩, ⟨l, rfl, rfl⟩, ⟨fn, rfl, rfl⟩, ⟨m, rfl, rfl⟩,
    ⟨pr, rfl, rfl⟩, ⟨de, rfl, rfl⟩, rfl⟩

/-- A successful `parseRows` parses exactly the given rows, in order. -/
lemma parseRows_ok {rows : List CsvRow} {recs : List Painting}
    (h : parseRows rows = Except.ok recs) :
    recs.length = rows.length
    ∧ ∀ i (hi : i < rows.length) (hr : i < recs.length),
        parseRow (rows.get ⟨i, hi⟩) = Except.ok (recs.get ⟨i, hr⟩) := by
  induction rows generalizing recs with
  | nil =>
    unfold parseRows at h
    injection h with h0
    subst h0
    exact ⟨rfl, fun i hi => absurd hi (by simp)⟩
  | cons d t ih =>
    unfold parseRows at h
    cases h1 : parseRow d with
    | error e => rw [h1] at h; exact Except.noConfusion h
    | ok p =>
    rw [h1] at h
    cases h2 : parseRows t with
    | error e => rw [h2] at h; exact Except.noConfusion h
    | ok r =>
    rw [h2] at h
    injection h with h0
    subst h0
    obtain ⟨hlen, hall⟩ := ih h2
    refine ⟨by simp [hlen], ?_⟩
    intro i hi hr
    cases i with
    | zero => simpa using h1
    | succ i0 =>
      have := hall i0 (by simpa using hi) (by simpa using hr)
      simpa using this

/-- C8: a successful load returns one record per row in source order;
each text field equals the stripped cell (location additionally
lowercased), the featured flag is true exactly when the stripped,
lowercased featured cell equals `yes` (false when the column is absent),
and the plain text fields carry no leading or trailing whitespace. -/
theorem c8_loader_normalizes (rows : List CsvRow) (recs : List Painting)
    (h : read_paintings_data true rows = Except.ok (some recs)) :
    recs.length = rows.length
    ∧ (∀ i (hi : i < rows.length) (hr : i < recs.length),
        (∀ v, dictLookup (rows.get ⟨i, hi⟩) (("title").data) = Except.ok v →
          (recs.get ⟨i, hr⟩).title = pyStrip v)
        ∧ (∀ v, dictLookup (rows.get ⟨i, hi⟩) (("location").data) = Except.ok v →
            (recs.get ⟨i, hr⟩).location = pyLower (pyStrip v))
        ∧ (∀ v, dictLookup (rows.get ⟨i, hi⟩) (("filename").data) = Except.ok v →
            (recs.get ⟨i, hr⟩).filename = pyStrip v)
        ∧ (∀ v, dictLookup (rows.get ⟨i, hi⟩) (("medium").data) = Except.ok v →
            (recs.get ⟨i, hr⟩).medium = pyStrip v)
        ∧ (∀ v, dictLookup (rows.get ⟨i, hi⟩) (("price").data) = Except.ok v →
            (recs.get ⟨i, hr⟩).price = pyStrip v)
        ∧ (∀ v, dictLookup (rows.get ⟨i, hi⟩) (("description").data) = Except.ok v →
            (recs.get ⟨i, hr⟩).description = pyStrip v)
        ∧ ((recs.get ⟨i, hr⟩).featured = true ↔
            pyLower (pyStrip (dictGet (rows.get ⟨i, hi⟩) (("featured").data) []))
              = ("yes").data)
        ∧ ((rows.get ⟨i, hi⟩).find? (fun kv => kv.1 == ("featured").data) = none →
            (recs.get ⟨i, hr⟩).featured = false))
    ∧ (∀ p ∈ recs, ∀ c,
        (p.title.head? = some c ∨ p.title.getLast? = some c
          ∨ p.filename.head? = some c ∨ p.filename.getLast? = some c
          ∨ p.medium.head? = some c ∨ p.medium.getLast? = some c
          ∨ p.price.head? = some c ∨ p.price.getLast? = some c
          ∨ p.description.head? = some c ∨ p.description.getLast? = some c)
          → pyIsSpace c = false) := by
  unfold read_paintings_data at h
  rw [if_neg (by simp)] at h
  cases hp : parseRows rows with
  | error e => rw [hp] at h; exact Except.noConfusion h
  | ok l =>
  rw [hp] at h
  have hlr : l = recs := by
    injection h with h0
    injection h0
  subst hlr
  obtain ⟨hlen, hall⟩ := parseRows_ok hp
  refine ⟨hlen, ?_, ?_⟩
  · intro i hi hr
    obtain ⟨⟨tv, htv, htv2⟩, ⟨lv, hlv, hlv2⟩, ⟨fv, hfv, hfv2⟩, ⟨mv, hmv, hmv2⟩,
      ⟨pv, hpv, hpv2⟩, ⟨dv, hdv, hdv2⟩, hfeat⟩ := parseRow_ok (hall i hi hr)
    refine ⟨?_, ?_, ?_, ?_, ?_, ?_, ?_, ?_⟩
    · intro v hv
      rw [htv] at hv
      injection hv with h0
      rw [htv2, h0]
    · intro v hv
      rw [hlv] at hv
      injection hv with h0
      rw [hlv2, h0]
    · intro v hv
      rw [hfv] at hv
      injection hv with h0
      rw [hfv2, h0]
    · intro v hv
      rw [hmv] at hv
      injection hv with h0
      rw [hmv2, h0]
    · intro v hv
      rw [hpv] at hv
      injection hv with h0
      rw [hpv2, h0]
    · intro v hv
      rw [hdv] at hv
      injection hv with h0
      rw [hdv2, h0]
    · rw [hfeat]
      simp
    · intro hnone
      rw [hfeat]
      unfold dictGet
      rw [hnone]
      decide
  · intro p hp2 c hdisj
    obtain ⟨⟨i, hi⟩, hn⟩ := List.mem_iff_get.mp hp2
    have hirow : i < rows.length := by omega
    obtain ⟨⟨tv, htv, htv2⟩, ⟨lv, hlv, hlv2⟩, ⟨fv, hfv, hfv2⟩, ⟨mv, hmv, hmv2⟩,
      ⟨pv, hpv, hpv2⟩, ⟨dv, hdv, hdv2⟩, hfeat⟩ :=
      parseRow_ok (hall i hirow hi)
    rw [hn] at htv2 hlv2 hfv2 hmv2 hpv2 hdv2
    rcases hdisj with hd | hd | hd | hd | hd | hd | hd | hd | hd | hd
    · exact pyStrip_head_not_space (htv2 ▸ hd)
    · exact pyStrip_getLast_not_space (htv2 ▸ hd)
    · exact pyStrip_head_not_space (hfv2 ▸ hd)
    · exact pyStrip_getLast_not_space (hfv2 ▸ hd)
    · exact pyStrip_head_not_space (hmv2 ▸ hd)
    · exact pyStrip_getLast_not_space (hmv2 ▸ hd)
    · exact pyStrip_head_not_space (hpv2 ▸ hd)
    · exact pyStrip_getLast_not_space (hpv2 ▸ hd)
    · exact pyStrip_head_not_space (hdv2 ▸ hd)
    · exact pyStrip_getLast_not_space (hdv2 ▸ hd)

/-- A raw CSV row with padded cells and an affirmative featured flag. -/
def c8Row : CsvRow :=
  [(("title").data, ("  Dawn ").data), (("location").data, (" Boston").data),
   (("filename").data, ("dawn.jpg").data), (("medium").data, ("Oil").data),
   (("price").data, ("100").data), (("description").data, ("A dawn").data),
   (("featured").data, (" YES ").data)]

/-- The record the loader produces for `c8Row`. -/
def c8Rec : Painting :=
  { title := ("Dawn").data, location := ("boston").data,
    filename := ("dawn.jpg").data, medium := ("Oil").data,
    price := ("100").data, description := ("A dawn").data, featured := true }

/-- C8 witness: the loader normalizes a concrete padded row. -/
theorem c8_witness :
    read_paintings_data true [c8Row] = Except.ok (some [c8Rec])
    ∧ [c8Rec].length = [c8Row].length :=
  ⟨by rfl, (c8_loader_normalizes [c8Row] [c8Rec] (by rfl)).1⟩

lemma find?_zip_none {header vals : List (List Char)} {k : List Char}
    (hk : ¬ k ∈ header) :
    (mkRow header vals).find? (fun kv => kv.1 == k) = none := by
  unfold mkRow
  induction header generalizing vals with
  | nil => simp
  | cons h t ih =>
    cases vals with
    | nil => simp
    | cons v vs =>
      rw [List.zip_cons_cons, List.find?_cons]
      have hne : (h == k) = false := by
        have : h ≠ k := fun he => hk (he ▸ List.mem_cons_self h t)
        exact beq_eq_false_iff_ne.mpr this
      simp only [hne]
      exact ih (fun hm => hk (List.mem_cons_of_mem h hm))

/-- A key outside the header is a `KeyError` on every row built from that
header. -/
lemma dictLookup_missing {header vals : List (List Char)} {k : List Char}
    (hk : ¬ k ∈ header) : dictLookup (mkRow header vals) k = Except.error () := by
  unfold dictLookup
  rw [find?_zip_none hk]

/-- A row missing any of the six required keys makes `parseRow` raise. -/
lemma parseRow_error_of_required_missing {d : CsvRow}
    (hmiss : ∃ k ∈ requiredFields, dictLookup d k = Except.error ()) :
    parseRow d = Except.error () := by
  cases hres : parseRow d with
  | error e => cases e; rfl
  | ok p =>
    exfalso
    obtain ⟨⟨tv, htv, _⟩, ⟨lv, hlv, _⟩, ⟨fv, hfv, _⟩, ⟨mv, hmv, _⟩,
      ⟨pv, hpv, _⟩, ⟨dv, hdv, _⟩, _⟩ := parseRow_ok hres
    obtain ⟨k, hkmem, hkerr⟩ := hmiss
    simp only [requiredFields, List.mem_cons, List.not_mem_nil, or_false] at hkmem
    rcases hkmem with rfl | rfl | rfl | rfl | rfl | rfl
    · rw [htv] at hkerr; exact Except.noConfusion hkerr
    · rw [hlv] at hkerr; exact Except.noConfusion hkerr
    · rw [hfv] at hkerr; exact Except.noConfusion hkerr
    · rw [hmv] at hkerr; exact Except.noConfusion hkerr
    · rw [hpv] at hkerr; exact Except.noConfusion hkerr
    · rw [hdv] at hkerr; exact Except.noConfusion hkerr

/-- C10: the `None` sentinel of the loader covers file absence only.  A
file that exists but whose header lacks a required column raises an
uncaught `KeyError` on its first data row instead of returning the
sentinel, and the sentinel is returned exactly when the file does not
exist. -/
theorem c10_sentinel_scope :
    (∀ rows, read_paintings_data false rows = Except.ok none)
    ∧ (∀ (header cells : List (List Char)) (rest : List (List (List Char)))
        (k : List Char), k ∈ requiredFields → ¬ k ∈ header →
        read_paintings_data true ((cells :: rest).map (mkRow header))
          = Except.error ())
    ∧ (∀ ex rows, read_paintings_data ex rows = Except.ok none ↔ ex = false) := by
  refine ⟨?_, ?_, ?_⟩
  · intro rows
    unfold read_paintings_data
    rw [if_pos rfl]
  · intro header cells rest k hk hkh
    unfold read_paintings_data
    rw [if_neg (by simp)]
    have h1 : parseRow (mkRow header cells) = Except.error () :=
      parseRow_error_of_required_missing ⟨k, hk, dictLookup_missing hkh⟩
    rw [List.map_cons]
    unfold parseRows
    rw [h1]
    rfl
  · intro ex rows
    cases ex with
    | false => simp [read_paintings_data]
    | true =>
      unfold read_paintings_data
      rw [if_neg (by simp)]
      cases hp : parseRows rows with
      | error e => simp [Except.map]
      | ok l => simp [Except.map]

/-- C10 witness: the sentinel at an absent file, the `KeyError` at a
header missing `location`, and the impossibility of the sentinel for an
existing file. -/
theorem c10_witness :
    read_paintings_data false [c8Row] = Except.ok none
    ∧ read_paintings_data true ([[("T").data]].map (mkRow [("title").data]))
        = Except.error ()
    ∧ ¬ read_paintings_data true [] = Except.ok none :=
  ⟨c10_sentinel_scope.1 [c8Row],
   c10_sentinel_scope.2.1 [("title").data] [("T").data] [] (("location").data)
     (by decide) (by decide),
   fun hh => absurd ((c10_sentinel_scope.2.2 true []).mp hh) (by decide)⟩

/-- The document `c1Doc` with a second copy of the start anchor in the
tail after the end anchor. -/
def c9Doc : List Char :=
  indexStartMarker ++ ("\nA\n").data ++ indexEndMarker ++ ("\nB\n").data
    ++ indexStartMarker

/-- What the empty-fragment splice produces from `c9Doc`. -/
def c9Out : List Char :=
  ("\n").data ++ indexEndMarker ++ ("\nB\n").data ++ indexStartMarker

/-- C9 counterexample: a document holding both markers (the start marker
appearing once more after the end marker) is spliced with the empty featured
fragment, yet the output still contains the start marker and a subsequent
splice does not fail. -/
theorem c9_counterexample :
    spliceAtMarkers indexStartMarker indexEndMarker c9Doc
        (generate_featured_section []) = some c9Out
    ∧ pyContains c9Out indexStartMarker = true
    ∧ spliceAtMarkers indexStartMarker indexEndMarker c9Out
        (generate_featured_section []) ≠ none := by
  refine ⟨by decide, by decide, by decide⟩

/-- C9 (amended): when no record is featured the generated featured
fragment is empty; if additionally the start anchor does not occur
anywhere at or after the end anchor's first occurrence, then the spliced
output contains no start anchor at all and every subsequent splice on it
fails. -/
theorem c9_amended_empty_fragment_drops_anchor (ps : List Painting)
    (doc : List Char) (s e : Nat)
    (hf : ps.filter (fun p => p.featured) = [])
    (hs : strFind doc indexStartMarker = some s)
    (he : strFind doc indexEndMarker = some e)
    (hno : strFind (doc.drop e) indexStartMarker = none) :
    spliceAtMarkers indexStartMarker indexEndMarker doc
        (generate_featured_section ps)
      = some (doc.take s ++ '\n' :: doc.drop e)
    ∧ strFind (doc.take s ++ '\n' :: doc.drop e) indexStartMarker = none
    ∧ ∀ frag2, spliceAtMarkers indexStartMarker indexEndMarker
        (doc.take s ++ '\n' :: doc.drop e) frag2 = none := by
  have hemp : generate_featured_section ps = [] := by
    unfold generate_featured_section
    rw [hf]
    rfl
  have hsdoc : s ≤ doc.length := strFind_le_length hs
  have hlenX : (doc.take s).length = s := by
    simp [List.length_take]
    omega
  have hnone2 : strFind (doc.take s ++ '\n' :: doc.drop e) indexStartMarker
      = none := by
    apply strFind_eq_none_of
    intro i hc
    by_cases hfit : i + indexStartMarker.length ≤ s
    · have h1 : indexStartMarker <+: (doc.take s).drop i :=
        prefix_drop_left_of_append hc (by omega)
      have h2 : indexStartMarker <+: doc.drop i :=
        prefix_drop_of_prefix_drop_take h1
      have hlm : 0 < indexStartMarker.length := by decide
      exact strFind_min_of_some hs i (by omega) h2
    · by_cases hright : s + 1 ≤ i
      · have hcast : doc.take s ++ '\n' :: doc.drop e
            = (doc.take s ++ ['\n']) ++ doc.drop e := by simp
        rw [hcast] at hc
        have h1 := prefix_drop_right_of_append
          (by simp [hlenX]; omega) hc
        exact strFind_none_no_occurrence hno _ h1
      · have hi : i ≤ (doc.take s).length := by omega
        rw [drop_append_of_le_len hi] at hc
        have hcross : ((doc.take s).drop i).length < indexStartMarker.length := by
          simp [List.length_drop, hlenX]
          omega
        have : '\n' ∈ indexStartMarker := mem_of_prefix_cross hc hcross
        exact absurd this (by decide)
  refine ⟨?_, hnone2, ?_⟩
  · simp [spliceAtMarkers, hs, he, hemp]
  · intro frag2
    simp [spliceAtMarkers, hnone2]

/-- C9 witness: the amended statement at a concrete index document. -/
theorem c9_witness :
    spliceAtMarkers indexStartMarker indexEndMarker c1Doc
        (generate_featured_section [sampleMisc])
      = some (c1Doc.take 0 ++ '\n' :: c1Doc.drop 38)
    ∧ strFind (c1Doc.take 0 ++ '\n' :: c1Doc.drop 38) indexStartMarker = none :=
  ⟨(c9_amended_empty_fragment_drops_anchor [sampleMisc] c1Doc 0 38
      (by decide) (by decide) (by decide) (by decide)).1,
   (c9_amended_empty_fragment_drops_anchor [sampleMisc] c1Doc 0 38
      (by decide) (by decide) (by decide) (by decide)).2.1⟩

/-- The gallery fragment always begins with the gallery start anchor. -/
lemma gs_prefix_gtg (ps : List Painting) :
    galleryStartMarker <+: generate_tabbed_gallery ps := by
  unfold generate_tabbed_gallery
  exact ((List.isPrefixOf_iff_prefix.mp (by decide)).trans
    (List.prefix_append _ _)).trans (List.prefix_append _ _)

lemma tghPre_long : 35 ≤ tghPre.length := by
  have h1 := (List.isPrefixOf_iff_prefix.mp
    (by decide : galleryStartMarker.isPrefixOf tghPre = true)).length_le
  have h2 : galleryStartMarker.length = 35 := by decide
  omega

/-- No proper suffix of the gallery start anchor is a prefix of the
fragment head. -/
lemma gs_no_straddle : ∀ k, k < galleryStartMarker.length → 0 < k →
    galleryStartMarker.drop (galleryStartMarker.length - k) ≠ tghPre.take k := by
  decide

/-- No proper suffix of the gallery end anchor is a prefix of the
fragment head. -/
lemma ge_no_straddle : ∀ k, k < galleryEndMarker.length → 0 < k →
    galleryEndMarker.drop (galleryEndMarker.length - k) ≠ tghPre.take k := by
  decide

/-- No occurrence of a short anchor can straddle the boundary between the
document prefix and the spliced-in gallery fragment. -/
lemma no_straddle_into_gtg {m X T : List Char} {ps : List Painting} {i : Nat}
    (hc : m <+: (X ++ (generate_tabbed_gallery ps ++ '\n' :: T)).drop i)
    (hiX : i < X.length) (hwide : X.length < i + m.length)
    (hmlen : m.length ≤ 35)
    (hstrad : ∀ k, k < m.length → 0 < k →
      m.drop (m.length - k) ≠ tghPre.take k) :
    False := by
  rw [drop_append_of_le_len (by omega)] at hc
  have hClen : (X.drop i).length = X.length - i := by simp
  have hsplit := prefix_append_split hc (by omega)
  have hkpos : 0 < m.length - (X.drop i).length := by omega
  have hklt : m.length - (X.drop i).length < m.length := by omega
  have htak : (generate_tabbed_gallery ps ++ '\n' :: T).take
        (m.length - (X.drop i).length)
      = tghPre.take (m.length - (X.drop i).length) := by
    have h1 : generate_tabbed_gallery ps ++ '\n' :: T
        = tghPre ++ (List.intercalate ['\n'] (tabsFor ps)
            ++ (tghPost ++ '\n' :: T)) := by
      unfold generate_tabbed_gallery
      simp
    rw [h1, take_append_of_le_len (by have := tghPre_long; omega)]
  rw [htak] at hsplit
  have hdropC : m.drop ((X.drop i).length)
      = tghPre.take (m.length - (X.drop i).length) := by
    conv_lhs => rw [hsplit]
    rw [List.drop_left]
  have hCeq : m.length - (m.length - (X.drop i).length) = (X.drop i).length := by
    omega
  refine hstrad (m.length - (X.drop i).length) hklt hkpos ?_
  rw [hCeq]
  exact hdropC

/-- C4 (amended): if both gallery anchors are present in order and the
generated fragment does not itself contain the end anchor, then the
splice succeeds, and splicing the result once more with the same fragment
reproduces it byte for byte. -/
theorem c4_amended_splice_idempotent (ps : List Painting) (doc : List Char)
    (s e : Nat)
    (hs : strFind doc galleryStartMarker = some s)
    (he : strFind doc galleryEndMarker = some e)
    (hlt : s < e)
    (hF : strFind (generate_tabbed_gallery ps) galleryEndMarker = none) :
    spliceAtMarkers galleryStartMarker galleryEndMarker doc
        (generate_tabbed_gallery ps)
      = some (doc.take s ++ (generate_tabbed_gallery ps ++ '\n' :: doc.drop e))
    ∧ spliceAtMarkers galleryStartMarker galleryEndMarker
        (doc.take s ++ (generate_tabbed_gallery ps ++ '\n' :: doc.drop e))
        (generate_tabbed_gallery ps)
      = some (doc.take s ++ (generate_tabbed_gallery ps ++ '\n' :: doc.drop e)) := by
  have hsdoc : s ≤ doc.length := strFind_le_length hs
  have hlenX : (doc.take s).length = s := by
    simp [List.length_take]
    omega
  have hM1len : galleryStartMarker.length = 35 := by decide
  have hM2len : galleryEndMarker.length = 19 := by decide
  have hFlen : 35 ≤ (generate_tabbed_gallery ps).length := by
    have h1 : (generate_tabbed_gallery ps).length
        = tghPre.length
          + ((List.intercalate ['\n'] (tabsFor ps)).length + tghPost.length) := by
      unfold generate_tabbed_gallery
      simp
    have := tghPre_long
    omega
  have hspliceA : spliceAtMarkers galleryStartMarker galleryEndMarker doc
      (generate_tabbed_gallery ps)
      = some (doc.take s ++ (generate_tabbed_gallery ps ++ '\n' :: doc.drop e)) := by
    simp [spliceAtMarkers, hs, he]
  have hdropS : (doc.take s
        ++ (generate_tabbed_gallery ps ++ '\n' :: doc.drop e)).drop s
      = generate_tabbed_gallery ps ++ '\n' :: doc.drop e := by
    rw [drop_append_of_ge_len (by omega), hlenX]
    simp
  have hfindA : strFind
      (doc.take s ++ (generate_tabbed_gallery ps ++ '\n' :: doc.drop e))
      galleryStartMarker = some s := by
    apply strFind_eq_some_of
    · rw [hdropS]
      exact (gs_prefix_gtg ps).trans (List.prefix_append _ _)
    · intro i hi hc
      by_cases hfit : i + galleryStartMarker.length ≤ s
      · have h1 : galleryStartMarker <+: (doc.take s).drop i :=
          prefix_drop_left_of_append hc (by omega)
        exact strFind_min_of_some hs i hi (prefix_drop_of_prefix_drop_take h1)
      · exact no_straddle_into_gtg hc (by omega) (by omega) (by omega)
          gs_no_straddle
  have hdropE : (doc.take s
        ++ (generate_tabbed_gallery ps ++ '\n' :: doc.drop e)).drop
          (s + (generate_tabbed_gallery ps).length + 1)
      = doc.drop e := by
    rw [drop_append_of_ge_len (by omega), hlenX]
    have h1 : s + (generate_tabbed_gallery ps).length + 1 - s
        = (generate_tabbed_gallery ps).length + 1 := by omega
    rw [h1, drop_append_of_ge_len (by omega)]
    have h2 : (generate_tabbed_gallery ps).length + 1
        - (generate_tabbed_gallery ps).length = 1 := by omega
    rw [h2]
    simp
  have hfindB : strFind
      (doc.take s ++ (generate_tabbed_gallery ps ++ '\n' :: doc.drop e))
      galleryEndMarker
      = some (s + (generate_tabbed_gallery ps).length + 1) := by
    apply strFind_eq_some_of
    · rw [hdropE]
      exact strFind_prefix_of_some he
    · intro i hi hc
      by_cases hfit : i + galleryEndMarker.length ≤ s
      · have h1 : galleryEndMarker <+: (doc.take s).drop i :=
          prefix_drop_left_of_append hc (by omega)
        exact strFind_min_of_some he i (by omega)
          (prefix_drop_of_prefix_drop_take h1)
      · by_cases hleft : i < s
        · exact no_straddle_into_gtg hc (by omega) (by omega) (by omega)
            ge_no_straddle
        · have hge : (doc.take s).length ≤ i := by omega
          have hc2 := prefix_drop_right_of_append hge hc
          rw [hlenX] at hc2
          by_cases hin : (i - s) + galleryEndMarker.length
              ≤ (generate_tabbed_gallery ps).length
          · have h1 : galleryEndMarker <+:
                (generate_tabbed_gallery ps).drop (i - s) :=
              prefix_drop_left_of_append hc2 (by omega)
            exact strFind_none_no_occurrence hF (i - s) h1
          · have hj : i - s ≤ (generate_tabbed_gallery ps).length := by omega
            rw [drop_append_of_le_len hj] at hc2
            have hcross : ((generate_tabbed_gallery ps).drop (i - s)).length
                < galleryEndMarker.length := by
              simp [List.length_drop]
              omega
            have : '\n' ∈ galleryEndMarker := mem_of_prefix_cross hc2 hcross
            exact absurd this (by decide)
  have htakeS : (doc.take s
        ++ (generate_tabbed_gallery ps ++ '\n' :: doc.drop e)).take s
      = doc.take s := by
    rw [take_append_of_le_len (by omega), List.take_of_length_le (by omega)]
  refine ⟨hspliceA, ?_⟩
  simp only [spliceAtMarkers, hfindA, hfindB]
  rw [htakeS, hdropE]
  simp

set_option maxRecDepth 40000 in
/-- C4 counterexample: on a gallery document whose anchors are present
but out of order, the first splice succeeds and both anchors survive in
the output, yet splicing a second time with the same fragment does not
reproduce the document. -/
theorem c4_counterexample :
    spliceAtMarkers galleryStartMarker galleryEndMarker c2Doc
        (generate_tabbed_gallery [])
      = some (c2Doc.take 19
          ++ (generate_tabbed_gallery [] ++ '\n' :: c2Doc.drop 0))
    ∧ pyContains (c2Doc.take 19
          ++ (generate_tabbed_gallery [] ++ '\n' :: c2Doc.drop 0))
        galleryStartMarker = true
    ∧ pyContains (c2Doc.take 19
          ++ (generate_tabbed_gallery [] ++ '\n' :: c2Doc.drop 0))
        galleryEndMarker = true
    ∧ spliceAtMarkers galleryStartMarker galleryEndMarker
        (c2Doc.take 19 ++ (generate_tabbed_gallery [] ++ '\n' :: c2Doc.drop 0))
        (generate_tabbed_gallery [])
      ≠ some (c2Doc.take 19
          ++ (generate_tabbed_gallery [] ++ '\n' :: c2Doc.drop 0)) := by
  refine ⟨by decide, by decide, by decide, by decide⟩

/-- A well-formed gallery document: start anchor, text, end anchor,
text. -/
def c4Doc : List Char :=
  galleryStartMarker ++ ("\nA\n").data ++ galleryEndMarker ++ ("\nB\n").data

set_option maxRecDepth 40000 in
/-- C4 witness: the amended idempotence at a concrete in-order gallery
document and the empty record set. -/
theorem c4_witness :
    spliceAtMarkers galleryStartMarker galleryEndMarker c4Doc
        (generate_tabbed_gallery [])
      = some (c4Doc.take 0 ++ (generate_tabbed_gallery [] ++ '\n' :: c4Doc.drop 38))
    ∧ spliceAtMarkers galleryStartMarker galleryEndMarker
        (c4Doc.take 0 ++ (generate_tabbed_gallery [] ++ '\n' :: c4Doc.drop 38))
        (generate_tabbed_gallery [])
      = some (c4Doc.take 0 ++ (generate_tabbed_gallery [] ++ '\n' :: c4Doc.drop 38)) :=
  ⟨(c4_amended_splice_idempotent [] c4Doc 0 38
      (by decide) (by decide) (by decide) (by decide)).1,
   (c4_amended_splice_idempotent [] c4Doc 0 38
      (by decide) (by decide) (by decide) (by decide)).2⟩
